import Mathlib

/-!
Xinghe launcher: `installer/launcher/xinghe_launcher.cpp`

A shallow embedding of `WinMain` and of the few library and platform calls it
makes, followed by the properties of the launch-and-relay contract.

* C strings (`char*`, `std::string`) are lists of `char`s (`CStr`).
* `DWORD` values are naturals reduced modulo `2^32`; `int` values are integers.
* The operating system is an `Env`: the answers it gives to the calls of one
  run.  Every call the program makes is appended to a trace, so that ordering
  properties can be stated.
-/

set_option linter.unusedVariables false

namespace Xinghe

/-! ## Strings -/

/-- A C string: the `char`s before the terminating NUL. -/
abbrev CStr := List Char

/-- Model of `std::string::find_last_of(const char*)`: the greatest index whose
character is one of `chars`; `none` stands for `std::string::npos`. -/
def find_last_of (s : CStr) (chars : CStr) : Option Nat :=
  match s with
  | [] => none
  | c :: rest =>
    match find_last_of rest chars with
    | some i => some (i + 1)
    | none => if c ∈ chars then some 0 else none

/-- Model of `std::string::substr(pos, n)`.  It throws only when
`pos > size()`, which cannot happen for the single use `substr(0, pos)`. -/
def substr (s : CStr) (pos n : Nat) : CStr :=
  (s.drop pos).take n

/-! ## Machine integers -/

/-- The constant `MAX_PATH` of `windows.h`. -/
def MAX_PATH : Nat := 260

/-- The constant `INFINITE` of `windows.h`. -/
def INFINITE : Nat := 0xFFFFFFFF

/-- The constant `MB_OK` of `windows.h`. -/
def MB_OK : Nat := 0x00000000

/-- The constant `MB_ICONERROR` of `windows.h`. -/
def MB_ICONERROR : Nat := 0x00000010

/-- Conversion of a `DWORD` (unsigned, 32 bits) to `int` (signed, 32 bits), as
performed by `return exitCode;` in a function returning `int`. -/
def int_of_DWORD (d : Nat) : Int :=
  if d % 2 ^ 32 < 2 ^ 31 then ((d % 2 ^ 32 : Nat) : Int)
  else ((d % 2 ^ 32 : Nat) : Int) - 2 ^ 32

/-- The process exit code the runtime reports for a value returned by
`WinMain`: the `int` is handed to `ExitProcess`, whose parameter is an
unsigned 32-bit `UINT`. -/
def exitCodeOfReturn (r : Int) : Nat :=
  (r % 2 ^ 32).toNat

/-! ## Platform data -/

/-- A `HANDLE` (also `HINSTANCE`, `HWND`), as an abstract number. -/
abbrev HANDLE := Nat

/-- The structure `PROCESS_INFORMATION` filled in by a successful
`CreateProcessA`. -/
structure PROCESS_INFORMATION where
  hProcess : HANDLE
  hThread : HANDLE
  dwProcessId : Nat
  dwThreadId : Nat
  deriving DecidableEq

/-- The members of `STARTUPINFOA` that matter here.  `STARTUPINFOA si =
{ sizeof(si) }` sets `cb` and zero-initialises every other member. -/
structure STARTUPINFOA where
  cb : Nat
  dwFlags : Nat
  wShowWindow : Nat
  deriving DecidableEq

/-- The arguments of one `CreateProcessA` call; `none` is a `NULL` pointer. -/
structure CreateProcessArgs where
  lpApplicationName : CStr
  lpCommandLine : CStr
  lpProcessAttributes : Option Nat
  lpThreadAttributes : Option Nat
  bInheritHandles : Bool
  dwCreationFlags : Nat
  lpEnvironment : Option Nat
  lpCurrentDirectory : Option CStr
  lpStartupInfo : STARTUPINFOA
  deriving DecidableEq

/-- One call made to the platform, with its arguments. -/
inductive Call where
  | GetModuleFileNameA (hModule : Option HANDLE) (nSize : Nat)
  | SetCurrentDirectoryA (lpPathName : CStr)
  | CreateProcessA (args : CreateProcessArgs)
  | WaitForSingleObject (hHandle : HANDLE) (dwMilliseconds : Nat)
  | GetExitCodeProcess (hProcess : HANDLE)
  | CloseHandle (hObject : HANDLE)
  | MessageBoxA (hWnd : Option HANDLE) (lpText lpCaption : CStr) (uType : Nat)
  deriving DecidableEq

/-- The answers of the operating system to the calls of one run. -/
structure Env where
  /-- The string `GetModuleFileNameA` leaves in the buffer `exePath`. -/
  exePath : CStr
  /-- Whether `SetCurrentDirectoryA` succeeds. -/
  setCurrentDirectory : Bool
  /-- The outcome of `CreateProcessA`: `none` when it fails. -/
  createProcess : Option PROCESS_INFORMATION
  /-- The value returned by `WaitForSingleObject(_, INFINITE)`; `none` when the
  child never terminates, so that the wait never returns. -/
  waitForSingleObject : Option Nat
  /-- The exit code stored by `GetExitCodeProcess`; `none` when it fails and
  stores nothing. -/
  getExitCodeProcess : Option Nat
  /-- The indeterminate initial content of the local `DWORD exitCode;`. -/
  exitCodeUninit : Nat
  /-- The value returned by `MessageBoxA` once the dialog is dismissed. -/
  messageBox : Nat
  /-- The value of `sizeof(STARTUPINFOA)` on the target. -/
  sizeofStartupInfo : Nat

/-- The part of the system state the launcher acts on. -/
structure Sys where
  /-- The calls made so far, oldest first. -/
  trace : List Call
  /-- The handles of the child that are open in the launcher. -/
  openHandles : List HANDLE
  deriving DecidableEq

/-- Appends a call to the trace. -/
def Sys.log (s : Sys) (c : Call) : Sys :=
  { s with trace := s.trace ++ [c] }

/-! ## Platform calls -/

/-- Model of `GetModuleFileNameA(hModule, buf, nSize)`: the path left in the
buffer. -/
def GetModuleFileNameA (env : Env) (hModule : Option HANDLE) (nSize : Nat)
    (s : Sys) : CStr × Sys :=
  (env.exePath, s.log (Call.GetModuleFileNameA hModule nSize))

/-- Model of `SetCurrentDirectoryA(path)`: returns whether it succeeded. -/
def SetCurrentDirectoryA (env : Env) (lpPathName : CStr) (s : Sys) : Bool × Sys :=
  (env.setCurrentDirectory, s.log (Call.SetCurrentDirectoryA lpPathName))

/-- Model of `CreateProcessA`: on success the two handles of the child become
open in the caller. -/
def CreateProcessA (env : Env) (args : CreateProcessArgs) (s : Sys) :
    Option PROCESS_INFORMATION × Sys :=
  match env.createProcess with
  | some pi =>
    (some pi, { trace := s.trace ++ [Call.CreateProcessA args],
                openHandles := s.openHandles ++ [pi.hProcess, pi.hThread] })
  | none => (none, s.log (Call.CreateProcessA args))

/-- Model of `WaitForSingleObject(h, ms)`; `none` when the call never
returns. -/
def WaitForSingleObject (env : Env) (hHandle : HANDLE) (dwMilliseconds : Nat)
    (s : Sys) : Option Nat × Sys :=
  (env.waitForSingleObject, s.log (Call.WaitForSingleObject hHandle dwMilliseconds))

/-- Model of `GetExitCodeProcess(h, &exitCode)`: the new content of the
variable `exitCode`, whose content before the call is `old`. -/
def GetExitCodeProcess (env : Env) (hProcess : HANDLE) (old : Nat) (s : Sys) :
    Nat × Sys :=
  (match env.getExitCodeProcess with
   | some c => c % 2 ^ 32
   | none => old,
   s.log (Call.GetExitCodeProcess hProcess))

/-- Model of `CloseHandle(h)`: the handle is no longer open. -/
def CloseHandle (hObject : HANDLE) (s : Sys) : Sys :=
  { trace := s.trace ++ [Call.CloseHandle hObject],
    openHandles := s.openHandles.erase hObject }

/-- Model of `MessageBoxA`: returns once the dialog has been dismissed. -/
def MessageBoxA (env : Env) (hWnd : Option HANDLE) (lpText lpCaption : CStr)
    (uType : Nat) (s : Sys) : Nat × Sys :=
  (env.messageBox, s.log (Call.MessageBoxA hWnd lpText lpCaption uType))

/-! ## The launcher -/

/-- The characters searched by `exeDir.find_last_of("\\/")`. -/
def separators : CStr := "\\/".toList

/-- Lines 14-18: `exeDir`, computed from the content of `exePath`. -/
def exeDir (exePath : CStr) : CStr :=
  let exeDir := exePath
  let pos := find_last_of exeDir separators
  match pos with
  | some pos => substr exeDir 0 pos
  | none => exeDir

/-- Line 21: `realAppPath`. -/
def realAppPath (exeDir : CStr) : CStr :=
  exeDir ++ "\\bin\\xinghe_app.exe".toList

/-- Line 24: `binDir`. -/
def binDir (exeDir : CStr) : CStr :=
  exeDir ++ "\\bin".toList

/-- The text of the error dialog. -/
def errorText : CStr := "无法启动应用程序。\n请尝试重新安装。".toList

/-- The caption of the error dialog. -/
def errorCaption : CStr := "启动错误".toList

/-- Lines 28 and 31-42: the arguments of the `CreateProcessA` call. -/
def createProcessArgs (env : Env) (exeDir lpCmdLine : CStr) : CreateProcessArgs :=
  { lpApplicationName := realAppPath exeDir
    lpCommandLine := lpCmdLine
    lpProcessAttributes := none
    lpThreadAttributes := none
    bInheritHandles := false
    dwCreationFlags := 0
    lpEnvironment := none
    lpCurrentDirectory := some (binDir exeDir)
    lpStartupInfo := { cb := env.sizeofStartupInfo, dwFlags := 0, wShowWindow := 0 } }

/-- What one run of the launcher does: the final system state and the value
returned by `WinMain`, `none` when `WinMain` never returns because the wait on
the child never does. -/
structure Outcome where
  sys : Sys
  ret : Option Int
  deriving DecidableEq

/-- The function `WinMain` of `xinghe_launcher.cpp`. -/
def WinMain (env : Env) (hInstance hPrevInstance : HANDLE) (lpCmdLine : CStr)
    (nCmdShow : Int) : Outcome :=
  let s : Sys := { trace := [], openHandles := [] }
  let (exePath, s) := GetModuleFileNameA env none MAX_PATH s
  let exeDir := exeDir exePath
  let (_, s) := SetCurrentDirectoryA env (binDir exeDir) s
  match CreateProcessA env (createProcessArgs env exeDir lpCmdLine) s with
  | (some pi, s) =>
    match WaitForSingleObject env pi.hProcess INFINITE s with
    | (none, s) => { sys := s, ret := none }
    | (some _, s) =>
      let exitCode := env.exitCodeUninit % 2 ^ 32
      let (exitCode, s) := GetExitCodeProcess env pi.hProcess exitCode s
      let s := CloseHandle pi.hProcess s
      let s := CloseHandle pi.hThread s
      { sys := s, ret := some (int_of_DWORD exitCode) }
  | (none, s) =>
    let (_, s) := MessageBoxA env none errorText errorCaption (MB_OK ||| MB_ICONERROR) s
    { sys := s, ret := some 1 }

/-- The exit code of the launcher process, when `WinMain` returns. -/
def launcherExitCode (o : Outcome) : Option Nat :=
  o.ret.map exitCodeOfReturn

/-- The `CreateProcessA` requests in a trace. -/
def createRequests : List Call → List CreateProcessArgs
  | [] => []
  | Call.CreateProcessA a :: t => a :: createRequests t
  | _ :: t => createRequests t

/-- The handles passed to `CloseHandle` in a trace. -/
def closedHandles : List Call → List HANDLE
  | [] => []
  | Call.CloseHandle h :: t => h :: closedHandles t
  | _ :: t => closedHandles t

/-- The dialogs shown in a trace: text, caption and flags. -/
def dialogs : List Call → List (CStr × CStr × Nat)
  | [] => []
  | Call.MessageBoxA _ text caption flags :: t => (text, caption, flags) :: dialogs t
  | _ :: t => dialogs t

/-- The directories passed to `SetCurrentDirectoryA` in a trace. -/
def directoriesSet : List Call → List CStr
  | [] => []
  | Call.SetCurrentDirectoryA d :: t => d :: directoriesSet t
  | _ :: t => directoriesSet t

/-- Whether a call is `WaitForSingleObject`. -/
def Call.isWait : Call → Bool
  | Call.WaitForSingleObject _ _ => true
  | _ => false

/-- Whether a call is `GetExitCodeProcess`. -/
def Call.isQuery : Call → Bool
  | Call.GetExitCodeProcess _ => true
  | _ => false

/-- An environment for tests: the launcher sits at `C:\app\xinghe.exe`, the
child is created and exits with code `c`. -/
def sampleEnv (c : Nat) : Env :=
  { exePath := "C:\\app\\xinghe.exe".toList
    setCurrentDirectory := true
    createProcess := some { hProcess := 100, hThread := 104, dwProcessId := 7, dwThreadId := 8 }
    waitForSingleObject := some 0
    getExitCodeProcess := some c
    exitCodeUninit := 0
    messageBox := 1
    sizeofStartupInfo := 68 }

/-- An environment for tests: the launcher is resolved to the bare name
`xinghe.exe` and the child cannot be created. -/
def bareEnv : Env :=
  { exePath := "xinghe.exe".toList
    setCurrentDirectory := false
    createProcess := none
    waitForSingleObject := none
    getExitCodeProcess := none
    exitCodeUninit := 0
    messageBox := 1
    sizeofStartupInfo := 68 }

/-- An environment for tests: the child is created and terminates, the
exit-code query fails, and the local `exitCode` held `u` before the query. -/
def queryFailsEnv (u : Nat) : Env :=
  { exePath := "C:\\app\\xinghe.exe".toList
    setCurrentDirectory := true
    createProcess := some { hProcess := 100, hThread := 104, dwProcessId := 7, dwThreadId := 8 }
    waitForSingleObject := some 0
    getExitCodeProcess := none
    exitCodeUninit := u
    messageBox := 1
    sizeofStartupInfo := 68 }

/-- An environment for tests: as `sampleEnv c`, except that the child never
terminates, so that the wait on it never returns. -/
def hungEnv (c : Nat) : Env :=
  { exePath := "C:\\app\\xinghe.exe".toList
    setCurrentDirectory := true
    createProcess := some { hProcess := 100, hThread := 104, dwProcessId := 7, dwThreadId := 8 }
    waitForSingleObject := none
    getExitCodeProcess := some c
    exitCodeUninit := 0
    messageBox := 1
    sizeofStartupInfo := 68 }

/-! ## Lemmas on the string functions -/

theorem find_last_of_eq_none (s chars : CStr) :
    find_last_of s chars = none ↔ ∀ x ∈ s, x ∉ chars := by
  induction s with
  | nil => simp [find_last_of]
  | cons c rest ih =>
    unfold find_last_of
    cases h : find_last_of rest chars with
    | some i =>
      have hne : ¬ ∀ x ∈ rest, x ∉ chars := fun hall => by
        rw [ih.mpr hall] at h
        cases h
      simp only [List.mem_cons, forall_eq_or_imp]
      constructor
      · intro h0
        cases h0
      · intro hall
        exact absurd hall.2 hne
    | none =>
      have hrest := ih.mp h
      by_cases hc : c ∈ chars
      · simp [hc]
      · rw [if_neg hc]
        simp only [List.mem_cons, forall_eq_or_imp, true_iff]
        exact ⟨hc, hrest⟩

theorem find_last_of_eq_some (s chars : CStr) (p : Nat)
    (h : find_last_of s chars = some p) :
    ∃ sep name, s = s.take p ++ sep :: name ∧ sep ∈ chars ∧ ∀ x ∈ name, x ∉ chars := by
  induction s generalizing p with
  | nil => simp [find_last_of] at h
  | cons c rest ih =>
    unfold find_last_of at h
    cases hr : find_last_of rest chars with
    | some i =>
      rw [hr] at h
      simp only [Option.some.injEq] at h
      subst h
      obtain ⟨sep, name, h1, h2, h3⟩ := ih i hr
      refine ⟨sep, name, ?_, h2, h3⟩
      simp only [List.take_succ_cons, List.cons_append, List.cons.injEq, true_and]
      exact h1
    | none =>
      rw [hr] at h
      by_cases hc : c ∈ chars
      · simp only [hc, if_true, Option.some.injEq] at h
        subst h
        exact ⟨c, rest, by simp, hc, (find_last_of_eq_none rest chars).mp hr⟩
      · simp [hc] at h

theorem find_last_of_append_sep (dir name chars : CStr) (sep : Char)
    (hsep : sep ∈ chars) (hname : ∀ x ∈ name, x ∉ chars) :
    find_last_of (dir ++ sep :: name) chars = some dir.length := by
  induction dir with
  | nil =>
    have hn := (find_last_of_eq_none name chars).mpr hname
    simp [find_last_of, hn, hsep]
  | cons c rest ih =>
    simp only [List.cons_append, List.length_cons]
    unfold find_last_of
    rw [ih]

theorem mem_separators (c : Char) : c ∈ separators ↔ c = '\\' ∨ c = '/' := by
  simp [separators]

theorem exeDir_of_split (dir name : CStr) (sep : Char)
    (hsep : sep ∈ separators) (hname : ∀ x ∈ name, x ∉ separators) :
    exeDir (dir ++ sep :: name) = dir := by
  simp [exeDir, find_last_of_append_sep dir name separators sep hsep hname, substr]

theorem exeDir_of_no_separator (s : CStr) (h : ∀ x ∈ s, x ∉ separators) :
    exeDir s = s := by
  simp [exeDir, (find_last_of_eq_none s separators).mpr h]

/-! ## The three shapes of a run -/

theorem WinMain_create_fails (env : Env) (hInstance hPrevInstance : HANDLE)
    (lpCmdLine : CStr) (nCmdShow : Int) (hc : env.createProcess = none) :
    WinMain env hInstance hPrevInstance lpCmdLine nCmdShow =
      { sys :=
          { trace :=
              [Call.GetModuleFileNameA none MAX_PATH,
               Call.SetCurrentDirectoryA (binDir (exeDir env.exePath)),
               Call.CreateProcessA (createProcessArgs env (exeDir env.exePath) lpCmdLine),
               Call.MessageBoxA none errorText errorCaption (MB_OK ||| MB_ICONERROR)]
            openHandles := [] }
        ret := some 1 } := by
  simp [WinMain, GetModuleFileNameA, SetCurrentDirectoryA, CreateProcessA, MessageBoxA,
    Sys.log, hc]

theorem WinMain_wait_blocks (env : Env) (hInstance hPrevInstance : HANDLE)
    (lpCmdLine : CStr) (nCmdShow : Int) (pi : PROCESS_INFORMATION)
    (hc : env.createProcess = some pi) (hw : env.waitForSingleObject = none) :
    WinMain env hInstance hPrevInstance lpCmdLine nCmdShow =
      { sys :=
          { trace :=
              [Call.GetModuleFileNameA none MAX_PATH,
               Call.SetCurrentDirectoryA (binDir (exeDir env.exePath)),
               Call.CreateProcessA (createProcessArgs env (exeDir env.exePath) lpCmdLine),
               Call.WaitForSingleObject pi.hProcess INFINITE]
            openHandles := [pi.hProcess, pi.hThread] }
        ret := none } := by
  simp [WinMain, GetModuleFileNameA, SetCurrentDirectoryA, CreateProcessA,
    WaitForSingleObject, Sys.log, hc, hw]

theorem WinMain_child_exits (env : Env) (hInstance hPrevInstance : HANDLE)
    (lpCmdLine : CStr) (nCmdShow : Int) (pi : PROCESS_INFORMATION) (w : Nat)
    (hc : env.createProcess = some pi) (hw : env.waitForSingleObject = some w) :
    WinMain env hInstance hPrevInstance lpCmdLine nCmdShow =
      { sys :=
          { trace :=
              [Call.GetModuleFileNameA none MAX_PATH,
               Call.SetCurrentDirectoryA (binDir (exeDir env.exePath)),
               Call.CreateProcessA (createProcessArgs env (exeDir env.exePath) lpCmdLine),
               Call.WaitForSingleObject pi.hProcess INFINITE,
               Call.GetExitCodeProcess pi.hProcess,
               Call.CloseHandle pi.hProcess,
               Call.CloseHandle pi.hThread]
            openHandles := [] }
        ret := some (int_of_DWORD
          (match env.getExitCodeProcess with
           | some c => c % 2 ^ 32
           | none => env.exitCodeUninit % 2 ^ 32)) } := by
  simp [WinMain, GetModuleFileNameA, SetCurrentDirectoryA, CreateProcessA,
    WaitForSingleObject, GetExitCodeProcess, CloseHandle, Sys.log, hc, hw]

theorem exitCodeOfReturn_int_of_DWORD (c : Nat) :
    exitCodeOfReturn (int_of_DWORD c) = c % 2 ^ 32 := by
  unfold exitCodeOfReturn int_of_DWORD
  have h : c % 2 ^ 32 < 2 ^ 32 := Nat.mod_lt _ (by norm_num)
  split <;> omega

/-! ## Exit-code relay -/

/-- C1: whatever the self path and the command line, when process creation
succeeds, the wait on the child returns and the exit-code query delivers the
32-bit code `C`, the launcher returns, its process exit code is exactly `C`,
and no dialog is shown. -/
theorem exit_code_relay (env : Env) (hInstance hPrevInstance : HANDLE)
    (lpCmdLine : CStr) (nCmdShow : Int) (pi : PROCESS_INFORMATION) (w C : Nat)
    (hcreate : env.createProcess = some pi)
    (hwait : env.waitForSingleObject = some w)
    (hquery : env.getExitCodeProcess = some C)
    (hC : C < 2 ^ 32) :
    launcherExitCode (WinMain env hInstance hPrevInstance lpCmdLine nCmdShow) = some C ∧
    dialogs (WinMain env hInstance hPrevInstance lpCmdLine nCmdShow).sys.trace = [] := by
  rw [WinMain_child_exits env hInstance hPrevInstance lpCmdLine nCmdShow pi w hcreate hwait]
  refine ⟨?_, by simp [dialogs]⟩
  simp only [launcherExitCode, Option.map_some', hquery, exitCodeOfReturn_int_of_DWORD,
    Nat.mod_mod]
  rw [Nat.mod_eq_of_lt hC]

theorem exit_code_relay_witness :
    launcherExitCode (WinMain (sampleEnv 3000000000) 0 0 "--open a.txt".toList 1)
      = some 3000000000 ∧
    dialogs (WinMain (sampleEnv 3000000000) 0 0 "--open a.txt".toList 1).sys.trace = [] :=
  exit_code_relay (sampleEnv 3000000000) 0 0 "--open a.txt".toList 1
    { hProcess := 100, hThread := 104, dwProcessId := 7, dwThreadId := 8 } 0 3000000000
    rfl rfl rfl (by norm_num)

/-! ## Spawn failure -/

/-- C2: whatever the self path and the command line, when the process-creation
call fails the run shows exactly one message box, with text
"无法启动应用程序。\n请尝试重新安装。", caption "启动错误" and flags
`MB_OK | MB_ICONERROR`, returns 1 (process exit code 1), has issued exactly one
creation request, and makes no wait, no exit-code query and no handle close. -/
theorem spawn_failure_reported (env : Env) (hInstance hPrevInstance : HANDLE)
    (lpCmdLine : CStr) (nCmdShow : Int) (hfail : env.createProcess = none) :
    dialogs (WinMain env hInstance hPrevInstance lpCmdLine nCmdShow).sys.trace =
      [("无法启动应用程序。\n请尝试重新安装。".toList, "启动错误".toList,
        MB_OK ||| MB_ICONERROR)] ∧
    (WinMain env hInstance hPrevInstance lpCmdLine nCmdShow).ret = some 1 ∧
    launcherExitCode (WinMain env hInstance hPrevInstance lpCmdLine nCmdShow) = some 1 ∧
    (createRequests
      (WinMain env hInstance hPrevInstance lpCmdLine nCmdShow).sys.trace).length = 1 ∧
    (WinMain env hInstance hPrevInstance lpCmdLine nCmdShow).sys.trace.countP
      Call.isWait = 0 ∧
    (WinMain env hInstance hPrevInstance lpCmdLine nCmdShow).sys.trace.countP
      Call.isQuery = 0 ∧
    closedHandles (WinMain env hInstance hPrevInstance lpCmdLine nCmdShow).sys.trace = [] := by
  rw [WinMain_create_fails env hInstance hPrevInstance lpCmdLine nCmdShow hfail]
  refine ⟨rfl, rfl, rfl, rfl, rfl, rfl, rfl⟩

theorem spawn_failure_reported_witness :
    dialogs (WinMain bareEnv 5 0 "-v".toList 1).sys.trace =
      [("无法启动应用程序。\n请尝试重新安装。".toList, "启动错误".toList,
        MB_OK ||| MB_ICONERROR)] ∧
    (WinMain bareEnv 5 0 "-v".toList 1).ret = some 1 ∧
    launcherExitCode (WinMain bareEnv 5 0 "-v".toList 1) = some 1 ∧
    (createRequests (WinMain bareEnv 5 0 "-v".toList 1).sys.trace).length = 1 ∧
    (WinMain bareEnv 5 0 "-v".toList 1).sys.trace.countP Call.isWait = 0 ∧
    (WinMain bareEnv 5 0 "-v".toList 1).sys.trace.countP Call.isQuery = 0 ∧
    closedHandles (WinMain bareEnv 5 0 "-v".toList 1).sys.trace = [] :=
  spawn_failure_reported bareEnv 5 0 "-v".toList 1 rfl

/-! ## The path computation and the spawn request -/

theorem exeDir_split_at_last_separator (S : CStr)
    (h : ∃ c ∈ S, c = '\\' ∨ c = '/') :
    ∃ (p : Nat) (sep : Char) (name : CStr),
      exeDir S = S.take p ∧
      S.drop p = sep :: name ∧
      (sep = '\\' ∨ sep = '/') ∧
      (∀ x ∈ name, x ≠ '\\' ∧ x ≠ '/') ∧
      S = exeDir S ++ [sep] ++ name := by
  cases hf : find_last_of S separators with
  | none =>
    obtain ⟨c, hc, hsep⟩ := h
    exact absurd ((mem_separators c).mpr hsep) ((find_last_of_eq_none S separators).mp hf c hc)
  | some p =>
    obtain ⟨sep, name, hS, hsep, hname⟩ := find_last_of_eq_some S separators p hf
    have hdir : exeDir S = S.take p := by simp [exeDir, hf, substr]
    have hlen : (S.take p).length = p := by
      have hl := congrArg List.length hS
      simp only [List.length_append, List.length_take, List.length_cons] at hl
      simp only [List.length_take]
      omega
    refine ⟨p, sep, name, hdir, ?_, (mem_separators sep).mp hsep, ?_, ?_⟩
    · have hd := congrArg (List.drop p) hS
      rw [List.drop_append_of_le_length (le_of_eq hlen.symm)] at hd
      rw [hd, List.drop_eq_nil_of_le (le_of_eq hlen)]
      rfl
    · intro x hx
      have hx2 := hname x hx
      rw [mem_separators] at hx2
      exact not_or.mp hx2
    · rw [hdir]
      simpa using hS

/-- C4: for every self path `S` with at least one `\` or `/`, `exeDir S` is
the part of `S` strictly before the last separator: there are an index `p`, a
separator `sep` and a separator-free `name` with `exeDir S = S.take p`,
`S.drop p = sep :: name` and `S = exeDir S ++ [sep] ++ name`. -/
theorem exeDir_before_last_separator (S : CStr)
    (h : ∃ c ∈ S, c = '\\' ∨ c = '/') :
    ∃ (p : Nat) (sep : Char) (name : CStr),
      exeDir S = S.take p ∧
      S.drop p = sep :: name ∧
      (sep = '\\' ∨ sep = '/') ∧
      (∀ x ∈ name, x ≠ '\\' ∧ x ≠ '/') ∧
      S = exeDir S ++ [sep] ++ name :=
  exeDir_split_at_last_separator S h

/-- A run of C4 on `C:\app/sub\xinghe.exe`, whose directory part keeps both
kinds of separator. -/
theorem exeDir_before_last_separator_witness :
    ∃ (p : Nat) (sep : Char) (name : CStr),
      exeDir "C:\\app/sub\\xinghe.exe".toList = "C:\\app/sub\\xinghe.exe".toList.take p ∧
      "C:\\app/sub\\xinghe.exe".toList.drop p = sep :: name ∧
      (sep = '\\' ∨ sep = '/') ∧
      (∀ x ∈ name, x ≠ '\\' ∧ x ≠ '/') ∧
      "C:\\app/sub\\xinghe.exe".toList =
        exeDir "C:\\app/sub\\xinghe.exe".toList ++ [sep] ++ name :=
  exeDir_before_last_separator "C:\\app/sub\\xinghe.exe".toList
    ⟨'/', by decide, Or.inr rfl⟩

/-- C3: for every self path `P` with at least one separator and every command
line `A`, `P` splits as `dir ++ [sep] ++ name` at its last separator and the
run issues exactly one creation request: application `dir\bin\xinghe_app.exe`,
command line `A`, no process or thread attributes, no handle inheritance,
creation flags 0, no environment, starting directory `dir\bin`. -/
theorem spawn_request (env : Env) (hInstance hPrevInstance : HANDLE)
    (A : CStr) (nCmdShow : Int)
    (h : ∃ c ∈ env.exePath, c = '\\' ∨ c = '/') :
    ∃ (dir : CStr) (sep : Char) (name : CStr),
      env.exePath = dir ++ [sep] ++ name ∧
      (sep = '\\' ∨ sep = '/') ∧
      (∀ x ∈ name, x ≠ '\\' ∧ x ≠ '/') ∧
      createRequests (WinMain env hInstance hPrevInstance A nCmdShow).sys.trace =
        [{ lpApplicationName := dir ++ "\\bin\\xinghe_app.exe".toList
           lpCommandLine := A
           lpProcessAttributes := none
           lpThreadAttributes := none
           bInheritHandles := false
           dwCreationFlags := 0
           lpEnvironment := none
           lpCurrentDirectory := some (dir ++ "\\bin".toList)
           lpStartupInfo :=
             { cb := env.sizeofStartupInfo, dwFlags := 0, wShowWindow := 0 } }] := by
  obtain ⟨p, sep, name, _, _, hsep, hname, hS⟩ := exeDir_split_at_last_separator env.exePath h
  refine ⟨exeDir env.exePath, sep, name, hS, hsep, hname, ?_⟩
  cases hc : env.createProcess with
  | none =>
    rw [WinMain_create_fails env hInstance hPrevInstance A nCmdShow hc]
    rfl
  | some pi =>
    cases hw : env.waitForSingleObject with
    | none =>
      rw [WinMain_wait_blocks env hInstance hPrevInstance A nCmdShow pi hc hw]
      rfl
    | some w =>
      rw [WinMain_child_exits env hInstance hPrevInstance A nCmdShow pi w hc hw]
      rfl

/-- A run of C3 for the launcher at `C:\app\xinghe.exe`. -/
theorem spawn_request_witness :
    ∃ (dir : CStr) (sep : Char) (name : CStr),
      (sampleEnv 0).exePath = dir ++ [sep] ++ name ∧
      (sep = '\\' ∨ sep = '/') ∧
      (∀ x ∈ name, x ≠ '\\' ∧ x ≠ '/') ∧
      createRequests (WinMain (sampleEnv 0) 0 0 "--open a.txt".toList 1).sys.trace =
        [{ lpApplicationName := dir ++ "\\bin\\xinghe_app.exe".toList
           lpCommandLine := "--open a.txt".toList
           lpProcessAttributes := none
           lpThreadAttributes := none
           bInheritHandles := false
           dwCreationFlags := 0
           lpEnvironment := none
           lpCurrentDirectory := some (dir ++ "\\bin".toList)
           lpStartupInfo :=
             { cb := (sampleEnv 0).sizeofStartupInfo, dwFlags := 0, wShowWindow := 0 } }] :=
  spawn_request (sampleEnv 0) 0 0 "--open a.txt".toList 1 ⟨'\\', by decide, Or.inl rfl⟩

/-- C5, as stated, fails for the self path `xinghe.exe`: it has no separator,
yet `exeDir` is not empty and the application path requested is not
`bin/xinghe_app.exe` but `xinghe.exe\bin\xinghe_app.exe`. -/
theorem no_separator_base_not_empty :
    bareEnv.exePath = "xinghe.exe".toList ∧
    (∀ c ∈ "xinghe.exe".toList, c ≠ '\\' ∧ c ≠ '/') ∧
    exeDir "xinghe.exe".toList ≠ [] ∧
    (createRequests (WinMain bareEnv 0 0 [] 1).sys.trace).map
        CreateProcessArgs.lpApplicationName ≠ ["bin/xinghe_app.exe".toList] ∧
    (createRequests (WinMain bareEnv 0 0 [] 1).sys.trace).map
        CreateProcessArgs.lpApplicationName = ["xinghe.exe\\bin\\xinghe_app.exe".toList] := by
  refine ⟨rfl, by decide, by decide, by decide, by decide⟩

/-- C5, amended: for every self path without `\` and `/`, `exeDir` is the whole
self path, the one creation request names the application
`<self path>\bin\xinghe_app.exe` and the directory `<self path>\bin`, the run
returns unless a created child never terminates, and when creation fails it
shows the one error dialog and exits with code 1. -/
theorem no_separator_keeps_whole_path (env : Env) (hInstance hPrevInstance : HANDLE)
    (lpCmdLine : CStr) (nCmdShow : Int)
    (hno : ∀ c ∈ env.exePath, c ≠ '\\' ∧ c ≠ '/') :
    exeDir env.exePath = env.exePath ∧
    createRequests (WinMain env hInstance hPrevInstance lpCmdLine nCmdShow).sys.trace =
      [{ lpApplicationName := env.exePath ++ "\\bin\\xinghe_app.exe".toList
         lpCommandLine := lpCmdLine
         lpProcessAttributes := none
         lpThreadAttributes := none
         bInheritHandles := false
         dwCreationFlags := 0
         lpEnvironment := none
         lpCurrentDirectory := some (env.exePath ++ "\\bin".toList)
         lpStartupInfo :=
           { cb := env.sizeofStartupInfo, dwFlags := 0, wShowWindow := 0 } }] ∧
    ((WinMain env hInstance hPrevInstance lpCmdLine nCmdShow).ret = none ↔
      env.createProcess ≠ none ∧ env.waitForSingleObject = none) ∧
    (env.createProcess = none →
      dialogs (WinMain env hInstance hPrevInstance lpCmdLine nCmdShow).sys.trace =
        [("无法启动应用程序。\n请尝试重新安装。".toList, "启动错误".toList,
          MB_OK ||| MB_ICONERROR)] ∧
      launcherExitCode (WinMain env hInstance hPrevInstance lpCmdLine nCmdShow) = some 1) := by
  have hd : exeDir env.exePath = env.exePath :=
    exeDir_of_no_separator env.exePath (fun x hx hm =>
      ((mem_separators x).mp hm).elim (hno x hx).1 (hno x hx).2)
  refine ⟨hd, ?_, ?_, ?_⟩
  · cases hc : env.createProcess with
    | none =>
      rw [WinMain_create_fails env hInstance hPrevInstance lpCmdLine nCmdShow hc, hd]
      rfl
    | some pi =>
      cases hw : env.waitForSingleObject with
      | none =>
        rw [WinMain_wait_blocks env hInstance hPrevInstance lpCmdLine nCmdShow pi hc hw, hd]
        rfl
      | some w =>
        rw [WinMain_child_exits env hInstance hPrevInstance lpCmdLine nCmdShow pi w hc hw, hd]
        rfl
  · cases hc : env.createProcess with
    | none =>
      rw [WinMain_create_fails env hInstance hPrevInstance lpCmdLine nCmdShow hc]
      simp
    | some pi =>
      cases hw : env.waitForSingleObject with
      | none =>
        rw [WinMain_wait_blocks env hInstance hPrevInstance lpCmdLine nCmdShow pi hc hw]
        simp
      | some w =>
        rw [WinMain_child_exits env hInstance hPrevInstance lpCmdLine nCmdShow pi w hc hw]
        simp
  · intro hc
    rw [WinMain_create_fails env hInstance hPrevInstance lpCmdLine nCmdShow hc]
    exact ⟨rfl, rfl⟩

/-- A run of the amended C5 for the self path `xinghe.exe`. -/
theorem no_separator_keeps_whole_path_witness :
    exeDir bareEnv.exePath = bareEnv.exePath ∧
    launcherExitCode (WinMain bareEnv 0 0 "-v".toList 1) = some 1 :=
  ⟨(no_separator_keeps_whole_path bareEnv 0 0 "-v".toList 1 (by decide)).1,
   ((no_separator_keeps_whole_path bareEnv 0 0 "-v".toList 1 (by decide)).2.2.2 rfl).2⟩

/-! ## The exit-code contract -/

/-- C6, as stated, fails when a created child itself exits with code 1: the
launcher's exit code is 1 although process creation did not fail. -/
theorem exit_one_without_spawn_failure :
    ¬ (launcherExitCode (WinMain (sampleEnv 1) 0 0 [] 1) = some 1 ↔
        (sampleEnv 1).createProcess = none) := by
  decide

/-- C6, amended: when process creation fails the launcher's exit code is 1;
every launcher exit code other than 1 comes from a run in which a child was
created, and equals the code the exit-code query delivered for that child
whenever that query succeeded. -/
theorem exit_code_contract (env : Env) (hInstance hPrevInstance : HANDLE)
    (lpCmdLine : CStr) (nCmdShow : Int) :
    (env.createProcess = none →
      launcherExitCode (WinMain env hInstance hPrevInstance lpCmdLine nCmdShow) = some 1) ∧
    (∀ e : Nat,
      launcherExitCode (WinMain env hInstance hPrevInstance lpCmdLine nCmdShow) = some e →
      e ≠ 1 →
      ∃ pi, env.createProcess = some pi ∧
        ∀ C, env.getExitCodeProcess = some C → e = C % 2 ^ 32) := by
  constructor
  · intro hc
    rw [WinMain_create_fails env hInstance hPrevInstance lpCmdLine nCmdShow hc]
    rfl
  · intro e he hne
    cases hc : env.createProcess with
    | none =>
      rw [WinMain_create_fails env hInstance hPrevInstance lpCmdLine nCmdShow hc] at he
      have h1 : (1 : Nat) = e := by
        simpa [launcherExitCode, exitCodeOfReturn] using he
      exact absurd h1.symm hne
    | some pi =>
      refine ⟨pi, rfl, ?_⟩
      intro C hq
      cases hw : env.waitForSingleObject with
      | none =>
        rw [WinMain_wait_blocks env hInstance hPrevInstance lpCmdLine nCmdShow pi hc hw] at he
        simp [launcherExitCode] at he
      | some w =>
        rw [WinMain_child_exits env hInstance hPrevInstance lpCmdLine nCmdShow pi w hc hw] at he
        simp only [launcherExitCode, Option.map_some', hq, exitCodeOfReturn_int_of_DWORD,
          Nat.mod_mod, Option.some.injEq] at he
        exact he.symm

/-- A run of the amended C6: creation fails, exit code 1; and a child exiting
with 7 is relayed. -/
theorem exit_code_contract_witness :
    launcherExitCode (WinMain bareEnv 0 0 [] 1) = some 1 ∧
    (∃ pi, (sampleEnv 7).createProcess = some pi ∧
      ∀ C, (sampleEnv 7).getExitCodeProcess = some C → 7 = C % 2 ^ 32) :=
  ⟨(exit_code_contract bareEnv 0 0 [] 1).1 rfl,
   (exit_code_contract (sampleEnv 7) 0 0 [] 1).2 7 (by decide) (by decide)⟩

/-! ## Ordering of the effects -/

/-- C7: the trace of every run starts with the path query, then the one
`SetCurrentDirectoryA` call, on `exeDir ++ "\bin"`, then the one
`CreateProcessA` call; the starting directory of that request is the directory
just set and its application path is that directory followed by
`\xinghe_app.exe`; what follows is the dialog alone when creation failed, and
otherwise the wait, then (once the wait returns) the exit-code query and the
two handle closes, in this order. -/
theorem effects_in_order (env : Env) (hInstance hPrevInstance : HANDLE)
    (lpCmdLine : CStr) (nCmdShow : Int) :
    (WinMain env hInstance hPrevInstance lpCmdLine nCmdShow).sys.trace =
      [Call.GetModuleFileNameA none MAX_PATH,
       Call.SetCurrentDirectoryA (exeDir env.exePath ++ "\\bin".toList),
       Call.CreateProcessA (createProcessArgs env (exeDir env.exePath) lpCmdLine)] ++
      (match env.createProcess with
       | none =>
         [Call.MessageBoxA none errorText errorCaption (MB_OK ||| MB_ICONERROR)]
       | some pi =>
         match env.waitForSingleObject with
         | none => [Call.WaitForSingleObject pi.hProcess INFINITE]
         | some _ =>
           [Call.WaitForSingleObject pi.hProcess INFINITE,
            Call.GetExitCodeProcess pi.hProcess,
            Call.CloseHandle pi.hProcess,
            Call.CloseHandle pi.hThread]) ∧
    (createProcessArgs env (exeDir env.exePath) lpCmdLine).lpCurrentDirectory =
      some (exeDir env.exePath ++ "\\bin".toList) ∧
    (createProcessArgs env (exeDir env.exePath) lpCmdLine).lpApplicationName =
      (exeDir env.exePath ++ "\\bin".toList) ++ "\\xinghe_app.exe".toList ∧
    directoriesSet (WinMain env hInstance hPrevInstance lpCmdLine nCmdShow).sys.trace =
      [exeDir env.exePath ++ "\\bin".toList] ∧
    (createRequests
      (WinMain env hInstance hPrevInstance lpCmdLine nCmdShow).sys.trace).length = 1 := by
  have happ : (createProcessArgs env (exeDir env.exePath) lpCmdLine).lpApplicationName =
      (exeDir env.exePath ++ "\\bin".toList) ++ "\\xinghe_app.exe".toList := by
    simp [createProcessArgs, realAppPath]
  cases hc : env.createProcess with
  | none =>
    rw [WinMain_create_fails env hInstance hPrevInstance lpCmdLine nCmdShow hc]
    exact ⟨rfl, rfl, happ, rfl, rfl⟩
  | some pi =>
    cases hw : env.waitForSingleObject with
    | none =>
      rw [WinMain_wait_blocks env hInstance hPrevInstance lpCmdLine nCmdShow pi hc hw]
      exact ⟨rfl, rfl, happ, rfl, rfl⟩
    | some w =>
      rw [WinMain_child_exits env hInstance hPrevInstance lpCmdLine nCmdShow pi w hc hw]
      exact ⟨rfl, rfl, happ, rfl, rfl⟩

/-! ## Handle release -/

/-- C8: in every run that returns, the handles closed are exactly the handles
obtained, each once: the process handle then the thread handle after a
successful creation, none after a failed one; the two closes directly follow
the exit-code query and nothing is closed before it; and no child handle is
open when the run returns. -/
theorem handles_released (env : Env) (hInstance hPrevInstance : HANDLE)
    (lpCmdLine : CStr) (nCmdShow : Int) (r : Int)
    (hret : (WinMain env hInstance hPrevInstance lpCmdLine nCmdShow).ret = some r) :
    closedHandles (WinMain env hInstance hPrevInstance lpCmdLine nCmdShow).sys.trace =
      (match env.createProcess with
       | some pi => [pi.hProcess, pi.hThread]
       | none => []) ∧
    (WinMain env hInstance hPrevInstance lpCmdLine nCmdShow).sys.openHandles = [] ∧
    (∀ pi, env.createProcess = some pi →
      ∃ before,
        (WinMain env hInstance hPrevInstance lpCmdLine nCmdShow).sys.trace =
          before ++ [Call.GetExitCodeProcess pi.hProcess,
                     Call.CloseHandle pi.hProcess,
                     Call.CloseHandle pi.hThread] ∧
        closedHandles before = []) := by
  cases hc : env.createProcess with
  | none =>
    rw [WinMain_create_fails env hInstance hPrevInstance lpCmdLine nCmdShow hc]
    refine ⟨rfl, rfl, ?_⟩
    intro pi hpi
    cases hpi
  | some pi =>
    cases hw : env.waitForSingleObject with
    | none =>
      rw [WinMain_wait_blocks env hInstance hPrevInstance lpCmdLine nCmdShow pi hc hw] at hret
      cases hret
    | some w =>
      rw [WinMain_child_exits env hInstance hPrevInstance lpCmdLine nCmdShow pi w hc hw]
      refine ⟨rfl, rfl, ?_⟩
      intro pi2 hpi
      cases hpi
      exact ⟨[Call.GetModuleFileNameA none MAX_PATH,
        Call.SetCurrentDirectoryA (binDir (exeDir env.exePath)),
        Call.CreateProcessA (createProcessArgs env (exeDir env.exePath) lpCmdLine),
        Call.WaitForSingleObject pi.hProcess INFINITE], rfl, rfl⟩

/-- A run of C8 in which the child is created with handles 100 and 104. -/
theorem handles_released_witness :
    closedHandles (WinMain (sampleEnv 0) 0 0 [] 1).sys.trace = [100, 104] ∧
    (WinMain (sampleEnv 0) 0 0 [] 1).sys.openHandles = [] :=
  ⟨(handles_released (sampleEnv 0) 0 0 [] 1 0 (by decide)).1,
   (handles_released (sampleEnv 0) 0 0 [] 1 0 (by decide)).2.1⟩

/-! ## What the result depends on -/

/-- C9, as stated, fails in its last sentence.  The runs on `queryFailsEnv 5`
and `queryFailsEnv 6` have the same self path, command line, outcome of process
creation, outcome of the wait and answer of the exit-code query (it fails), yet
exit with 5 and with 6: the unchecked query leaves `exitCode` as it was.  The
runs on `hungEnv 5` and `sampleEnv 5` have the same self path, command line,
outcome of process creation and exit code on offer, yet the first never returns
and the second returns 5. -/
theorem result_not_decided_by_named_inputs :
    (queryFailsEnv 5).exePath = (queryFailsEnv 6).exePath ∧
    (queryFailsEnv 5).createProcess = (queryFailsEnv 6).createProcess ∧
    (queryFailsEnv 5).waitForSingleObject = (queryFailsEnv 6).waitForSingleObject ∧
    (queryFailsEnv 5).getExitCodeProcess = (queryFailsEnv 6).getExitCodeProcess ∧
    launcherExitCode (WinMain (queryFailsEnv 5) 0 0 "-v".toList 1) = some 5 ∧
    launcherExitCode (WinMain (queryFailsEnv 6) 0 0 "-v".toList 1) = some 6 ∧
    (hungEnv 5).exePath = (sampleEnv 5).exePath ∧
    (hungEnv 5).createProcess = (sampleEnv 5).createProcess ∧
    (hungEnv 5).getExitCodeProcess = (sampleEnv 5).getExitCodeProcess ∧
    (WinMain (hungEnv 5) 0 0 "-v".toList 1).ret = none ∧
    (WinMain (sampleEnv 5) 0 0 "-v".toList 1).ret = some 5 := by
  refine ⟨rfl, rfl, rfl, rfl, by decide, by decide, rfl, rfl, rfl, by decide, by decide⟩

/-- C9, amended: a run is the same, call for call and in its result, whether
`SetCurrentDirectoryA` succeeds or fails and whatever `hInstance`,
`hPrevInstance` and `nCmdShow` are; and two runs with the same self path and
command line, the same outcome of process creation (success or failure), the
same outcome of the wait (the child terminates or not) and the same answer of
the exit-code query, that query succeeding whenever it is made, issue the same
application path, command line and starting directory and return the same
value. -/
theorem result_depends_only_on (env env2 : Env) (b : Bool)
    (hInstance hPrevInstance hInstance2 hPrevInstance2 : HANDLE)
    (lpCmdLine : CStr) (nCmdShow nCmdShow2 : Int) :
    WinMain { env with setCurrentDirectory := b } hInstance2 hPrevInstance2 lpCmdLine nCmdShow2
      = WinMain env hInstance hPrevInstance lpCmdLine nCmdShow ∧
    (env2.exePath = env.exePath →
     env2.createProcess.isSome = env.createProcess.isSome →
     env2.waitForSingleObject.isSome = env.waitForSingleObject.isSome →
     env2.getExitCodeProcess = env.getExitCodeProcess →
     (env.createProcess.isSome = true → env.waitForSingleObject.isSome = true →
        env.getExitCodeProcess.isSome = true) →
     (createRequests
        (WinMain env2 hInstance2 hPrevInstance2 lpCmdLine nCmdShow2).sys.trace).map
        (fun a => (a.lpApplicationName, a.lpCommandLine, a.lpCurrentDirectory)) =
     (createRequests
        (WinMain env hInstance hPrevInstance lpCmdLine nCmdShow).sys.trace).map
        (fun a => (a.lpApplicationName, a.lpCommandLine, a.lpCurrentDirectory)) ∧
     (WinMain env2 hInstance2 hPrevInstance2 lpCmdLine nCmdShow2).ret =
       (WinMain env hInstance hPrevInstance lpCmdLine nCmdShow).ret ∧
     launcherExitCode (WinMain env2 hInstance2 hPrevInstance2 lpCmdLine nCmdShow2) =
       launcherExitCode (WinMain env hInstance hPrevInstance lpCmdLine nCmdShow)) := by
  constructor
  · rfl
  · intro hp hcs hws hq hs
    have key : ∀ (e : Env) (h1 h2 : HANDLE) (n : Int),
        (createRequests (WinMain e h1 h2 lpCmdLine n).sys.trace).map
          (fun a => (a.lpApplicationName, a.lpCommandLine, a.lpCurrentDirectory)) =
          [(realAppPath (exeDir e.exePath), lpCmdLine, some (binDir (exeDir e.exePath)))] ∧
        (WinMain e h1 h2 lpCmdLine n).ret =
          (match e.createProcess.isSome, e.waitForSingleObject.isSome with
           | false, _ => some 1
           | true, false => none
           | true, true => some (int_of_DWORD
              (match e.getExitCodeProcess with
               | some c => c % 2 ^ 32
               | none => e.exitCodeUninit % 2 ^ 32))) := by
      intro e h1 h2 n
      cases hc : e.createProcess with
      | none =>
        rw [WinMain_create_fails e h1 h2 lpCmdLine n hc]
        exact ⟨rfl, rfl⟩
      | some pi =>
        cases hw : e.waitForSingleObject with
        | none =>
          rw [WinMain_wait_blocks e h1 h2 lpCmdLine n pi hc hw]
          exact ⟨rfl, rfl⟩
        | some w =>
          rw [WinMain_child_exits e h1 h2 lpCmdLine n pi w hc hw]
          exact ⟨rfl, rfl⟩
    have k2 := key env2 hInstance2 hPrevInstance2 nCmdShow2
    have k1 := key env hInstance hPrevInstance nCmdShow
    have hret : (WinMain env2 hInstance2 hPrevInstance2 lpCmdLine nCmdShow2).ret =
        (WinMain env hInstance hPrevInstance lpCmdLine nCmdShow).ret := by
      rw [k2.2, k1.2, hcs, hws, hq]
      cases hc : env.createProcess.isSome with
      | false => rfl
      | true =>
        cases hw : env.waitForSingleObject.isSome with
        | false => rfl
        | true =>
          cases hg : env.getExitCodeProcess with
          | none =>
            have hsome := hs hc hw
            rw [hg] at hsome
            cases hsome
          | some c => rfl
    refine ⟨?_, hret, ?_⟩
    · rw [k2.1, k1.1, hp]
    · simp only [launcherExitCode, hret]

/-- A run of the amended C9: the directory change fails in one run and succeeds
in the other, and the entry-point parameters differ. -/
theorem result_depends_only_on_witness :
    (WinMain { sampleEnv 5 with setCurrentDirectory := false, messageBox := 0 }
        9 9 "-v".toList 3).ret
      = (WinMain (sampleEnv 5) 0 0 "-v".toList 1).ret :=
  ((result_depends_only_on (sampleEnv 5)
      { sampleEnv 5 with setCurrentDirectory := false, messageBox := 0 } true
      0 0 9 9 "-v".toList 1 3).2 rfl rfl rfl rfl (fun _ _ => rfl)).2.1

/-! ## Width of the exit code -/

/-- C10: when the child's exit code `C`, below `2^32`, is relayed, `WinMain`
returns the `int` `C` if `C < 2^31` and `C - 2^32` otherwise, a value within
the range of a signed 32-bit integer, and that value taken modulo `2^32` as the
process exit code is `C` again. -/
theorem exit_code_width (env : Env) (hInstance hPrevInstance : HANDLE)
    (lpCmdLine : CStr) (nCmdShow : Int) (pi : PROCESS_INFORMATION) (w C : Nat)
    (hcreate : env.createProcess = some pi)
    (hwait : env.waitForSingleObject = some w)
    (hquery : env.getExitCodeProcess = some C)
    (hC : C < 2 ^ 32) :
    (WinMain env hInstance hPrevInstance lpCmdLine nCmdShow).ret =
      some (if C < 2 ^ 31 then (C : Int) else (C : Int) - 2 ^ 32) ∧
    -(2 : Int) ^ 31 ≤ (if C < 2 ^ 31 then (C : Int) else (C : Int) - 2 ^ 32) ∧
    (if C < 2 ^ 31 then (C : Int) else (C : Int) - 2 ^ 32) < (2 : Int) ^ 31 ∧
    exitCodeOfReturn (if C < 2 ^ 31 then (C : Int) else (C : Int) - 2 ^ 32) = C := by
  have hconv : int_of_DWORD (C % 2 ^ 32) =
      (if C < 2 ^ 31 then (C : Int) else (C : Int) - 2 ^ 32) := by
    simp only [int_of_DWORD, Nat.mod_mod, Nat.mod_eq_of_lt hC]
  have hback := exitCodeOfReturn_int_of_DWORD (C % 2 ^ 32)
  rw [hconv, Nat.mod_mod, Nat.mod_eq_of_lt hC] at hback
  rw [WinMain_child_exits env hInstance hPrevInstance lpCmdLine nCmdShow pi w hcreate hwait]
  simp only [hquery, hconv]
  refine ⟨trivial, ?_, ?_, hback⟩
  · split <;> omega
  · split <;> omega

/-- A run of C10 for the exit code `0xC0000005`, which is above `2^31`. -/
theorem exit_code_width_witness :
    (WinMain (sampleEnv 0xC0000005) 0 0 [] 1).ret = some (-1073741819) ∧
    exitCodeOfReturn (-1073741819) = 0xC0000005 :=
  ⟨(exit_code_width (sampleEnv 0xC0000005) 0 0 [] 1
      { hProcess := 100, hThread := 104, dwProcessId := 7, dwThreadId := 8 } 0 0xC0000005
      rfl rfl rfl (by norm_num)).1,
   (exit_code_width (sampleEnv 0xC0000005) 0 0 [] 1
      { hProcess := 100, hThread := 104, dwProcessId := 7, dwThreadId := 8 } 0 0xC0000005
      rfl rfl rfl (by norm_num)).2.2.2⟩

end Xinghe
